import Mathlib

/-!
Verification of the observation/action transform pipeline of
`pettingzoo/utils/wrapper.py` (class `wrapper`).

Shallow embedding conventions:
* numpy arrays are `NDArray`: a row-major flat list of rational values
  together with a shape and a dtype tag;
* machine floating point values are idealized as exact rationals; `uint8`
  casts are modelled exactly (C-style truncation toward zero, wraparound
  modulo 256);
* agent ids are natural numbers; the per-agent dictionaries of the wrapper
  are functions `ℕ → _` updated pointwise, together with the list
  `agents` of the dictionary keys;
* Python `assert` failures and `NameError` are modelled with
  `Except`/`Option`;
* the module `pettingzoo.utils.frame_stack` (functions `stack_obs_space`,
  `stack_reset_obs`, `stack_obs`) is imported by the wrapper but is not
  part of the sources; those three functions are modelled from the spec
  (see the doc comments marked `Modelled from the spec`).
-/

/-- Numpy dtype tags used by the embedding.  Floating point dtypes are
idealized: their values are arbitrary rationals. -/
inductive DType
  | u8
  | f32
  | f64
deriving DecidableEq, Repr

/-- A numpy array: shape, dtype tag and row-major flat data. -/
structure NDArray where
  shape : List ℕ
  dtype : DType
  data : List ℚ
deriving DecidableEq, Repr

/-- A `gym.spaces.Box` observation-space descriptor: shape, dtype and the
flat `low`/`high` bound arrays (row-major, same shape). -/
structure SpaceDesc where
  shape : List ℕ
  dtype : DType
  low : List ℚ
  high : List ℚ
deriving DecidableEq, Repr

/-- C-style truncation toward zero of a rational (what `astype` to an
integer dtype does to a float value). -/
def truncQ (q : ℚ) : ℤ := q.num.tdiv q.den

/-- Casting a value to a dtype: `u8` truncates toward zero and wraps
modulo 256 (numpy unsafe cast); float dtypes are idealized as exact. -/
def castValue : DType → ℚ → ℚ
  | .u8, q => ((truncQ q % 256 : ℤ) : ℚ)
  | .f32, q => q
  | .f64, q => q

/-- `astype`: cast every element, set the dtype tag. -/
def astype (a : NDArray) (d : DType) : NDArray :=
  ⟨a.shape, d, a.data.map (castValue d)⟩

/-- The `low` bound of a space descriptor viewed as an array. -/
def lowArr (d : SpaceDesc) : NDArray := ⟨d.shape, d.dtype, d.low⟩

/-- The `high` bound of a space descriptor viewed as an array. -/
def highArr (d : SpaceDesc) : NDArray := ⟨d.shape, d.dtype, d.high⟩

/-- `gym.spaces.Box(low=low, high=high, dtype=dtype)` with array bounds:
the shape is the shape of `low`, and gym casts the bound arrays to the
requested dtype. -/
def mkBox (low high : NDArray) (d : DType) : SpaceDesc :=
  ⟨low.shape, d, low.data.map (castValue d), high.data.map (castValue d)⟩

/-- Shape of `a[:, :, c]` for a 3-d array of shape `[s0, s1, s2]`.
`_check_wrapper_params` asserts that color reduction is only configured
for observation spaces with exactly 3 dimensions, so the catch-all arm is
unreachable in validated configurations. -/
def shapeAfterSlice : List ℕ → List ℕ
  | s0 :: s1 :: _ :: _ => [s0, s1]
  | s => s

/-- `obs[:, :, c]`: select channel `c` on axis 2 of a 3-d array. -/
def sliceC (a : NDArray) (c : ℕ) : NDArray :=
  match a.shape with
  | s0 :: s1 :: s2 :: _ =>
    ⟨[s0, s1], a.dtype,
      (List.range (s0 * s1)).map (fun i => a.data.getD (i * s2 + c) 0)⟩
  | _ => a

/-- The luminance weights `[0.299, 0.587, 0.114]` of
`np.average(..., weights=[0.299, 0.587, 0.114], axis=2)`. -/
def lumWeights : List ℚ := [299/1000, 587/1000, 114/1000]

/-- `np.average(a, weights=[0.299, 0.587, 0.114], axis=2)` on a 3-d
array: for every `(i, j)`, the weighted sum over the channel axis divided
by the sum of the weights; the result dtype is float64.  The channel
extent is 3 in every validated configuration (numpy raises otherwise). -/
def npAverage2 (a : NDArray) : NDArray :=
  match a.shape with
  | s0 :: s1 :: s2 :: _ =>
    ⟨[s0, s1], .f64,
      (List.range (s0 * s1)).map (fun i =>
        (((List.range s2).map
            (fun c => lumWeights.getD c 0 * a.data.getD (i * s2 + c) 0)).sum)
          / lumWeights.sum)⟩
  | _ => a

/-- `np.expand_dims(a, axis=-1)`. -/
def expandDims (a : NDArray) : NDArray := ⟨a.shape ++ [1], a.dtype, a.data⟩

/-- `a.flatten()`. -/
def flattenArr (a : NDArray) : NDArray := ⟨[a.shape.prod], a.dtype, a.data⟩

/-- Row-major multi-index of flat index `flat` in `shape` (last axis
fastest). -/
def multiIdx (shape : List ℕ) (flat : ℕ) : List ℕ :=
  (shape.foldr (fun s acc => ((acc.2 % s) :: acc.1, acc.2 / s)) (([] : List ℕ), flat)).1

/-- Row-major flat index of multi-index `idx` in `shape`. -/
def flatIdx (shape idx : List ℕ) : ℕ :=
  (List.zip shape idx).foldl (fun acc p => acc * p.1 + p.2) 0

/-- Whether a multi-index is inside a shape. -/
def inBounds (shape idx : List ℕ) : Bool :=
  (List.zip shape idx).all (fun p => p.2 < p.1)

/-- Read an element of `a` at a multi-index, with zero padding outside the
array (`skimage.measure.block_reduce` pads with `cval=0` when the block
size does not divide the extent). -/
def readPadded (a : NDArray) (idx : List ℕ) : ℚ :=
  if inBounds a.shape idx then a.data.getD (flatIdx a.shape idx) 0 else 0

/-- Truncate-and-wrap a rational to a `uint8` natural value. -/
def u8OfQ (q : ℚ) : ℕ := (truncQ q % 256).toNat

/-- `np.mean(x, dtype=np.uint8)`: the sum is accumulated in `uint8`
(wraparound modulo 256) and the final true division by the element count
is cast back to `uint8` (truncation). -/
def u8mean (vals : List ℚ) : ℚ :=
  ((vals.foldl (fun acc x => (acc + u8OfQ x) % 256) 0) / vals.length : ℕ)

/-- The elements of the block of `a` at output multi-index `outIdx` for
block sizes `bs`, in row-major order, zero padded at the boundary. -/
def blockVals (a : NDArray) (bs outIdx : List ℕ) : List ℚ :=
  (List.range bs.prod).map (fun j =>
    readPadded a
      (List.zipWith (fun oi p => oi * p.1 + p.2) outIdx (List.zip bs (multiIdx bs j))))

/-- `skimage.measure.block_reduce(a, block_size=bs, func=mean)` with
`mean = lambda x, axis: np.mean(x, axis=axis, dtype=np.uint8)` (line 289
of the wrapper): the output extent on each axis is the ceiling of
`extent / block`, the input is zero padded to a multiple of the block
size, and every output element is the `uint8` mean of its block.  The
output dtype is `uint8` whatever the input dtype. -/
def blockReduceU8 (a : NDArray) (bs : List ℕ) : NDArray :=
  let outShape := List.zipWith (fun s b => (s + b - 1) / b) a.shape bs
  ⟨outShape, .u8,
    (List.range outShape.prod).map (fun f => u8mean (blockVals a bs (multiIdx outShape f)))⟩

/-- The wrapper configuration after `_check_wrapper_params` has
normalized every option to a per-agent mapping (`self.color_reduction`,
`self.down_scale`, `self.range_scale`, `self.new_dtype` are dicts keyed
by agent; `self.reshape` stays a scalar; `down_scale` values are tuples
of ints; `range_scale` values are `(min, max)` pairs). -/
structure WrapperConfig where
  color_reduction : Option (ℕ → String)
  down_scale : Option (ℕ → List ℕ)
  reshape : Option String
  range_scale : Option (ℕ → ℚ × ℚ)
  new_dtype : Option (ℕ → DType)
  continuous_actions : Bool
  frame_stacking : ℕ

/-- `COLOR_RED_LIST` of the source. -/
def COLOR_RED_LIST : List String := ["full", "R", "G", "B"]

/-- `OBS_RESHAPE_LIST` of the source. -/
def OBS_RESHAPE_LIST : List String := ["expand", "flatten"]

/-- One agent of the color-reduction loop of `modify_observation_space`
(lines 196-212): the four `if` branches on the mode; `Box` is rebuilt
from the sliced or luminance-averaged bounds with the original dtype.
`_check_wrapper_params` guarantees the mode is in `COLOR_RED_LIST`; for
any other mode the source leaves the loop locals `low`/`high` unbound
(`NameError`) and the catch-all arm here is unreachable. -/
def spaceColorAgent (mode : String) (d : SpaceDesc) : SpaceDesc :=
  if mode = "R" then mkBox (sliceC (lowArr d) 0) (sliceC (highArr d) 0) d.dtype
  else if mode = "G" then mkBox (sliceC (lowArr d) 1) (sliceC (highArr d) 1) d.dtype
  else if mode = "B" then mkBox (sliceC (lowArr d) 2) (sliceC (highArr d) 2) d.dtype
  else if mode = "full" then
    mkBox (astype (npAverage2 (lowArr d)) d.dtype) (astype (npAverage2 (highArr d)) d.dtype)
      d.dtype
  else d

/-- One agent of the downscale loop of `modify_observation_space`
(lines 217-225): `new_shape[i] = int(shape[i] / down_scale[i])`
(truncating division) and the flattened bounds are truncated to the new
element count and reshaped; the dtype is preserved. -/
def spaceDownAgent (ds : List ℕ) (d : SpaceDesc) : SpaceDesc :=
  let newShape := (List.range d.shape.length).map (fun i => d.shape.getD i 0 / ds.getD i 0)
  mkBox ⟨newShape, d.dtype, d.low.take newShape.prod⟩
    ⟨newShape, d.dtype, d.high.take newShape.prod⟩ d.dtype

/-- One agent of the reshape loop of `modify_observation_space`
(lines 230-242): `expand` appends a trailing unit axis, `flatten`
flattens the bounds.  `_check_wrapper_params` restricts the mode to
`OBS_RESHAPE_LIST`, so the catch-all arm (which in the source would reuse
stale `low`/`high` locals) is unreachable. -/
def spaceReshapeAgent (mode : String) (d : SpaceDesc) : SpaceDesc :=
  if mode = "expand" then mkBox (expandDims (lowArr d)) (expandDims (highArr d)) d.dtype
  else if mode = "flatten" then mkBox (flattenArr (lowArr d)) (flattenArr (highArr d)) d.dtype
  else d

/-- `np.divide(x, hi - lo, dtype=dt)`: division computed in (and cast
to) the target dtype.  For an integer target dtype numpy true division
actually raises a `TypeError`; the embedding casts instead, which is
equivalent for every claim considered here (both phases use the same
operation). -/
def npDivCast (dt : DType) (x q : ℚ) : ℚ := castValue dt (x / q)

/-- One agent of the range-scale loop of `modify_observation_space`
(lines 247-257): bounds become
`np.subtract(np.divide(bound, max - min, dtype=dtype), min)` with
`dtype = new_dtype[agent]` when `new_dtype` is set, else the current
dtype.  Subtracting the Python scalar `min` preserves the array dtype
(value-based casting); values are exact in the rational model. -/
def spaceRangeAgent (rs : ℚ × ℚ) (ndt : Option DType) (d : SpaceDesc) : SpaceDesc :=
  let dt := ndt.getD d.dtype
  mkBox ⟨d.shape, dt, d.low.map (fun x => npDivCast dt x (rs.2 - rs.1) - rs.1)⟩
    ⟨d.shape, dt, d.high.map (fun x => npDivCast dt x (rs.2 - rs.1) - rs.1)⟩ dt

/-- Last extent of a shape (1 for the empty shape). -/
def lastDim (s : List ℕ) : ℕ := s.getLastD 1

/-- Shape of `k` equal-shape frames concatenated along the last axis. -/
def stackShape (s : List ℕ) (k : ℕ) : List ℕ := s.dropLast ++ [lastDim s * k]

/-- `np.concatenate(frames, axis=-1)` for equal-shape frames: every
row-major row of the output is the concatenation of the corresponding
rows of the frames, in list order. -/
def concatLast (frames : List NDArray) : NDArray :=
  match frames with
  | [] => ⟨[], .f64, []⟩
  | f :: _ =>
    ⟨stackShape f.shape frames.length, f.dtype,
      (List.range f.shape.dropLast.prod).flatMap (fun r =>
        frames.flatMap (fun g => (g.data.drop (r * lastDim f.shape)).take (lastDim f.shape)))⟩

/-- Modelled from the spec: `stack_obs_space` from
`pettingzoo.utils.frame_stack` is imported by the wrapper but its source
file is not part of the repository snapshot.  Per the spec, frame
stacking appends a stacking axis of depth `k` to the declared shape,
replicating the bound values across it, and the stacked data is the `k`
buffered frames concatenated along the stacking axis (oldest first); the
end-to-end example (a flat length-n observation stacking to length n*k)
fixes the stacking axis as the last axis.  The descriptor is therefore
the concatenation of `k` copies of the bounds along the last axis. -/
def stack_obs_space_desc (d : SpaceDesc) (k : ℕ) : SpaceDesc :=
  ⟨stackShape d.shape k, d.dtype,
    (concatLast (List.replicate k (lowArr d))).data,
    (concatLast (List.replicate k (highArr d))).data⟩

/-- Modelled from the spec: the frame-buffer update performed by
`stack_obs` from `pettingzoo.utils.frame_stack` (not part of the
snapshot).  Per the spec, the first transformed observation establishes
the buffer by replication across all `k` slots (no history exists before
the first frame), and every later observation evicts the oldest slot and
appends the new one (FIFO, oldest first). -/
def stackPush (buf : Option (List NDArray)) (obs : NDArray) (k : ℕ) : List NDArray :=
  match buf with
  | none => List.replicate k obs
  | some l => l.drop 1 ++ [obs]

/-- The frame-stacking step of `modify_observation_space` (lines
267-269), applied pointwise to the dict of descriptors when
`frame_stacking > 1`. -/
def stackPhase (cfg : WrapperConfig) (sp : ℕ → SpaceDesc) : ℕ → SpaceDesc :=
  if cfg.frame_stacking > 1 then fun a => stack_obs_space_desc (sp a) cfg.frame_stacking
  else sp

/-- One loop of `modify_observation_space` over the agents: each
iteration reads the current descriptor `obs_space` of the agent, writes
the transformed descriptor back into the dict, and leaves the Python
local `obs_space` bound to the value last read (the second component:
the stale `obs_space` observed by any later code). -/
def runPhase (f : ℕ → SpaceDesc → SpaceDesc) (agents : List ℕ)
    (st : (ℕ → SpaceDesc) × Option SpaceDesc) : (ℕ → SpaceDesc) × Option SpaceDesc :=
  agents.foldl (fun acc a => (Function.update acc.1 a (f a (acc.1 a)), some (acc.1 a))) st

/-- An optional loop of `modify_observation_space`: run only when the
corresponding option is configured. -/
def phaseAt {β : Type} (o : Option β) (g : β → ℕ → SpaceDesc → SpaceDesc) (agents : List ℕ)
    (st : (ℕ → SpaceDesc) × Option SpaceDesc) : (ℕ → SpaceDesc) × Option SpaceDesc :=
  match o with
  | none => st
  | some x => runPhase (g x) agents st

/-- `wrapper.modify_observation_space` (lines 193-270): the
color-reduction, downscale, reshape and range-scale loops each rewrite
every agent entry of the observation-space dict in turn; then, when
`range_scale` is unset but `new_dtype` is set, the source builds every
agent's `Box` from the Python local `obs_space` left over from the last
iteration of the most recent earlier loop — `none` models the `NameError`
raised when no earlier loop ran at all; finally, when
`frame_stacking > 1`, the whole dict is passed through
`stack_obs_space`. -/
def modify_observation_space (cfg : WrapperConfig) (agents : List ℕ)
    (spaces : ℕ → SpaceDesc) : Option (ℕ → SpaceDesc) :=
  let st1 := phaseAt cfg.color_reduction (fun cr a d => spaceColorAgent (cr a) d) agents
    (spaces, none)
  let st2 := phaseAt cfg.down_scale (fun ds a d => spaceDownAgent (ds a) d) agents st1
  let st3 := phaseAt cfg.reshape (fun m _ d => spaceReshapeAgent m d) agents st2
  match cfg.range_scale with
  | some rs =>
    let st4 := runPhase
      (fun a d => spaceRangeAgent (rs a) (cfg.new_dtype.map (fun nd => nd a)) d) agents st3
    some (stackPhase cfg st4.1)
  | none =>
    match cfg.new_dtype with
    | some nd =>
      match st3.2 with
      | none => none
      | some staleD =>
        some (stackPhase cfg
          (agents.foldl (fun sp a => Function.update sp a (mkBox (lowArr staleD) (highArr staleD) (nd a))) st3.1))
    | none => some (stackPhase cfg st3.1)

/-- The color-reduction step of `modify_observation` (lines 275-284):
four independent `if`s on the mode; an unmatched mode leaves the
observation unchanged (no branch fires). -/
def dataColorAgent (mode : String) (a : NDArray) : NDArray :=
  if mode = "R" then sliceC a 0
  else if mode = "G" then sliceC a 1
  else if mode = "B" then sliceC a 2
  else if mode = "full" then astype (npAverage2 a) a.dtype
  else a

/-- The reshape step of `modify_observation` (lines 293-301). -/
def dataReshape (mode : String) (a : NDArray) : NDArray :=
  if mode = "expand" then expandDims a
  else if mode = "flatten" then flattenArr a
  else a

/-- The range-scale step of `modify_observation` (lines 304-311):
`np.divide(np.subtract(obs, min_obs), max_obs - min_obs, dtype=dtype)`
with `dtype = new_dtype[agent]` when set, else the current dtype of the
observation. -/
def dataRangeAgent (rs : ℚ × ℚ) (ndt : Option DType) (a : NDArray) : NDArray :=
  let dt := ndt.getD a.dtype
  ⟨a.shape, dt, a.data.map (fun x => npDivCast dt (x - rs.1) (rs.2 - rs.1))⟩

/-- The color-reduction step of `modify_observation`, run only when
configured (lines 275-284). -/
def dataColorOpt (cfg : WrapperConfig) (a : ℕ) (o : NDArray) : NDArray :=
  match cfg.color_reduction with
  | none => o
  | some cr => dataColorAgent (cr a) o

/-- The downscale step of `modify_observation`, run only when configured
(lines 287-290). -/
def dataDownOpt (cfg : WrapperConfig) (a : ℕ) (o : NDArray) : NDArray :=
  match cfg.down_scale with
  | none => o
  | some ds => blockReduceU8 o (ds a)

/-- The reshape step of `modify_observation`, run only when configured
(lines 293-301). -/
def dataReshapeOpt (cfg : WrapperConfig) (o : NDArray) : NDArray :=
  match cfg.reshape with
  | none => o
  | some m => dataReshape m o

/-- The range-scale / dtype-cast step of `modify_observation`
(lines 304-314): range scaling when `range_scale` is set (with the target
dtype from `new_dtype` when that is also set), else a plain `astype` when
only `new_dtype` is set. -/
def dataRangeOpt (cfg : WrapperConfig) (a : ℕ) (o : NDArray) : NDArray :=
  match cfg.range_scale with
  | some rs => dataRangeAgent (rs a) (cfg.new_dtype.map (fun nd => nd a)) o
  | none =>
    match cfg.new_dtype with
    | some nd => astype o (nd a)
    | none => o

/-- Lines 273-314 of `wrapper.modify_observation`: the data-level
transform chain before frame stacking (color reduction, downscale,
reshape, then range scale or dtype cast). -/
def preStackTransform (cfg : WrapperConfig) (a : ℕ) (obs : NDArray) : NDArray :=
  dataRangeOpt cfg a (dataReshapeOpt cfg (dataDownOpt cfg a (dataColorOpt cfg a obs)))

/-- `wrapper.modify_observation` (lines 272-320): the data-level chain
followed, when `frame_stacking > 1`, by pushing the transformed
observation into the agent frame buffer (`stack_obs`) and returning the
buffered frames concatenated along the stacking axis.  Returns the
observation handed to the caller and the new frame buffer of the agent.
The `is_reset` parameter of the source is ignored by the source itself
(line 317 always calls `stack_obs`). -/
def modify_observation (cfg : WrapperConfig) (a : ℕ) (obs : NDArray)
    (buf : Option (List NDArray)) : NDArray × Option (List NDArray) :=
  let o4 := preStackTransform cfg a obs
  if cfg.frame_stacking > 1 then
    let newbuf := stackPush buf o4 cfg.frame_stacking
    (concatLast newbuf, some newbuf)
  else (o4, buf)

/-- A gym action space as dispatched on by the wrapper: `Discrete(n)`,
`MultiDiscrete(nvec)`, a `Box` (the `unbounded` flag records whether it
is the fully unbounded box the wrapper itself builds), or any other
space kind (the `assert False` arm of the source). -/
inductive ActSpace
  | discrete (n : ℕ)
  | multiDiscrete (nvec : List ℕ)
  | boxA (shape : List ℕ) (unbounded : Bool)
  | other
deriving DecidableEq, Repr

/-- The per-space computation of `modify_action_space` (lines 147-155):
`Discrete(n)` becomes `Box(low=-inf, high=inf, shape=(n,))`,
`MultiDiscrete(nvec)` becomes `Box(low=-inf, high=inf,
shape=(sum(nvec),))`, a `Box` is kept unchanged, and any other kind hits
`assert False` (`none`). -/
def newActSpace : ActSpace → Option ActSpace
  | .discrete n => some (.boxA [n] true)
  | .multiDiscrete nvec => some (.boxA [nvec.sum] true)
  | .boxA s b => some (.boxA s b)
  | .other => none

/-- `wrapper.modify_action_space` (lines 144-158): when
`continuous_actions` is set, every agent entry of `self.action_spaces`
(a copy of the original dict) is replaced by the continuous space
computed from that agent's entry of `self.orig_action_spaces`. -/
def modify_action_space (continuous : Bool) (agents : List ℕ) (orig : ℕ → ActSpace) :
    Option (ℕ → ActSpace) :=
  if continuous then
    agents.foldlM (fun sp ag => (newActSpace (orig ag)).map (fun ns => Function.update sp ag ns))
      orig
  else some orig

/-- An action value flowing through the wrapper: a continuous vector, a
sampled discrete index, or a vector of sampled indices. -/
inductive ActionV
  | vec (v : List ℚ)
  | idx (n : ℕ)
  | idxVec (v : List ℕ)
deriving DecidableEq, Repr

/-- `warped_act_space.contains(np.asarray(action))` (line 166) for the
spaces reachable with `continuous_actions`: a `Box` contains a vector of
matching element count (the boxes built by the wrapper are unbounded, so
only the shape matters; for a pass-through bounded `Box` the bound check
is not modelled); a non-array action is not contained. -/
def containsA : ActSpace → ActionV → Bool
  | .boxA s _, .vec v => v.length = s.prod
  | _, _ => false

/-- The contiguous per-dimension segments of a multi-discrete continuous
action (lines 179-184): `v[0:n0]`, `v[n0:n0+n1]`, ... in declared
order. -/
def segmentsOf (nvec : List ℕ) (v : List ℚ) : List (List ℚ) :=
  (nvec.foldl (fun acc n => ((v.drop acc.2).take n :: acc.1, acc.2 + n)) ([], 0)).1.reverse

/-- `wrapper.modify_action` (lines 160-191).  The stochastic draw
`np.argmax(np.random.multinomial(1, softmax(vec)))` is floating-point
categorical sampling from an ambient random source; it is abstracted as
the injected function `sampler` (the spec requires the random source to
be injectable).  With `continuous_actions` unset the action passes
through unchanged; otherwise the action must be contained in the warped
space (`none` models the failed assert / `ActionError`), and is mapped
per the original space kind. -/
def modify_action (cfg : WrapperConfig) (sampler : List ℚ → ℕ) (orig : ℕ → ActSpace)
    (ag : ℕ) (action : ActionV) : Option ActionV :=
  if cfg.continuous_actions then
    match newActSpace (orig ag) with
    | none => none
    | some warped =>
      if containsA warped action then
        match action, orig ag with
        | .vec v, .discrete _ => some (.idx (sampler v))
        | .vec v, .multiDiscrete nvec => some (.idxVec ((segmentsOf nvec v).map sampler))
        | .vec v, .boxA _ _ => some (.vec v)
        | _, _ => none
      else none
  else some action

/-- A declared observation space: a rectangular `gym.spaces.Box` or any
other space kind. -/
inductive ObsSpace
  | box (d : SpaceDesc)
  | nonBox
deriving Repr

/-- `wrapper._check_box_space` (lines 134-142): all declared observation
spaces are `Box`. -/
def check_box_space (agents : List ℕ) (spaces : ℕ → ObsSpace) : Bool :=
  agents.all (fun a => match spaces a with | .box _ => true | .nonBox => false)

/-- The descriptor of a `Box` observation space (the placeholder is never
consulted: `modify_observation_space` only runs when every space is a
`Box`). -/
def descOf : ObsSpace → SpaceDesc
  | .box d => d
  | .nonBox => ⟨[], .f64, [], []⟩

/-- The warning text of line 78. -/
def boxWarnMsg : String := "All agent observation spaces are not Box"

/-- Lines 75-78 of `wrapper.__init__`: when every observation space is a
`Box`, the dict is rewritten by `modify_observation_space` (failure of
that call, i.e. the stale-variable `NameError`, aborts construction);
otherwise the dict is left untouched and a non-fatal
`UserWarning` is emitted. Returns the declared spaces and the warnings. -/
def wrapperInitSpaces (cfg : WrapperConfig) (agents : List ℕ) (spaces : ℕ → ObsSpace) :
    Option ((ℕ → ObsSpace) × List String) :=
  if check_box_space agents spaces then
    (modify_observation_space cfg agents (fun a => descOf (spaces a))).map
      (fun f => (fun a => ObsSpace.box (f a), []))
  else some (spaces, [boxWarnMsg])

/-- The collaborator Environment (spec section 6): an opaque state with
the turn pointer and the raw reset/observe/step interface.  `stepE`
advances the turn (the new `agent_selection` is read off the new state)
and returns the raw post-step observation. -/
structure EnvModel (S : Type) where
  agent_selection : S → ℕ
  resetE : S → S × NDArray
  observeE : S → ℕ → NDArray
  stepE : S → ActionV → S × NDArray

/-- The mutable wrapper state: configuration, wrapped environment state
and the per-agent frame buffers (`self.stack_of_frames`, initialized to
`None` per agent in `__init__`, line 69). -/
structure WrapperState (S : Type) where
  cfg : WrapperConfig
  envState : S
  stack_of_frames : ℕ → Option (List NDArray)

/-- `wrapper.reset` (lines 328-335): with `observe=True` the environment
is reset, the agent whose turn it is (read after the reset) has its raw
observation routed through `modify_observation`, and the agent frame
buffer is updated. -/
def wrapperReset {S : Type} (env : EnvModel S) (st : WrapperState S) (observe : Bool) :
    WrapperState S × Option NDArray :=
  if observe then
    let s2 := (env.resetE st.envState).1
    let agent := env.agent_selection s2
    let mo := modify_observation st.cfg agent (env.resetE st.envState).2
      (st.stack_of_frames agent)
    (⟨st.cfg, s2, Function.update st.stack_of_frames agent mo.2⟩, some mo.1)
  else (⟨st.cfg, (env.resetE st.envState).1, st.stack_of_frames⟩, none)

/-- `wrapper.observe` (lines 337-340): the raw observation of the agent
is routed through `modify_observation` unconditionally. -/
def wrapperObserve {S : Type} (env : EnvModel S) (st : WrapperState S) (a : ℕ) :
    WrapperState S × NDArray :=
  let mo := modify_observation st.cfg a (env.observeE st.envState a) (st.stack_of_frames a)
  (⟨st.cfg, st.envState, Function.update st.stack_of_frames a mo.2⟩, mo.1)

/-- `wrapper.step` (lines 342-358): the acting agent is read from
`env.agent_selection` BEFORE the environment advances (line 343); the
caller action is reverse-mapped for that agent, the environment steps,
and with `observe=True` the raw post-step observation is transformed
(and frame-buffered) for that same pre-step agent.  `none` models the
`ActionError` assert of `modify_action`. -/
def wrapperStep {S : Type} (env : EnvModel S) (sampler : List ℚ → ℕ) (orig : ℕ → ActSpace)
    (st : WrapperState S) (action : ActionV) (observe : Bool) :
    Option (WrapperState S × Option NDArray) :=
  let agent := env.agent_selection st.envState
  match modify_action st.cfg sampler orig agent action with
  | none => none
  | some act2 =>
    if observe then
      let s2 := (env.stepE st.envState act2).1
      let mo := modify_observation st.cfg agent (env.stepE st.envState act2).2
        (st.stack_of_frames agent)
      some (⟨st.cfg, s2, Function.update st.stack_of_frames agent mo.2⟩, some mo.1)
    else some (⟨st.cfg, (env.stepE st.envState act2).1, st.stack_of_frames⟩, none)

/-- A raw constructor option that is either a single scalar applying to
all agents or a dict keyed by agent id (modelled as an association list,
so that a dict may omit an agent key). -/
inductive RawStrParam
  | scalar (s : String)
  | dict (m : List (ℕ × String))
deriving DecidableEq, Repr

/-- Line 92 of `_check_wrapper_params`: a scalar option is expanded to
`dict(zip(self.agents, [value] * len(self.agents)))`; a dict is kept. -/
def normalizeStrParam (agents : List ℕ) : RawStrParam → List (ℕ × String)
  | .scalar s => agents.map (fun a => (a, s))
  | .dict m => m

/-- Dict key lookup. -/
def lookupA (m : List (ℕ × String)) (a : ℕ) : Option String :=
  (m.find? (fun p => p.1 == a)).map Prod.snd

/-- The body of the per-agent validation loop for `color_reduction`
(lines 94-99): the agent id must be a key of the dict, the value must be
in `COLOR_RED_LIST`, the observation space of the agent must have
exactly 3 dimensions, and the mode `full` emits a non-fatal warning.
Returns the warnings, or the text of the failed assert. -/
def checkColorAgent (m : List (ℕ × String)) (spacesShape : ℕ → List ℕ) (a : ℕ) :
    Except String (List String) :=
  match lookupA m a with
  | none => .error "Agent id is not a key of color_reduction"
  | some v =>
    if v ∈ COLOR_RED_LIST then
      if (spacesShape a).length = 3 then
        .ok (if v = "full" then ["You have chosen true grayscaling. It might be too slow."] else [])
      else .error "To apply color_reduction, length of shape of obs space of the agent should be 3"
    else .error "color_reduction must be in COLOR_RED_LIST"

/-- The `color_reduction` part of `wrapper._check_wrapper_params`
(lines 89-99): normalize the raw option to a per-agent dict, then run the
validation loop over all agents.  Returns the normalized dict and the
accumulated warnings, or the first failed assert (`ConfigError`). -/
def check_color_reduction (p : Option RawStrParam) (agents : List ℕ)
    (spacesShape : ℕ → List ℕ) : Except String (Option (List (ℕ × String)) × List String) :=
  match p with
  | none => .ok (none, [])
  | some raw =>
    let m := normalizeStrParam agents raw
    (agents.foldlM (fun ws a => (checkColorAgent m spacesShape a).map (fun w => ws ++ w))
        ([] : List String)).map (fun ws => (some m, ws))

/-- The descriptor of one agent after the color-reduction phase of
`modify_observation_space` (identity when `color_reduction` is unset). -/
def spaceColorOpt (cfg : WrapperConfig) (a : ℕ) (d : SpaceDesc) : SpaceDesc :=
  match cfg.color_reduction with
  | none => d
  | some cr => spaceColorAgent (cr a) d

/-- The descriptor of one agent after the downscale phase of
`modify_observation_space` (identity when `down_scale` is unset). -/
def spaceDownOpt (cfg : WrapperConfig) (a : ℕ) (d : SpaceDesc) : SpaceDesc :=
  match cfg.down_scale with
  | none => d
  | some ds => spaceDownAgent (ds a) d

/-- The descriptor of one agent after the reshape phase of
`modify_observation_space` (identity when `reshape` is unset). -/
def spaceReshapeOpt (cfg : WrapperConfig) (d : SpaceDesc) : SpaceDesc :=
  match cfg.reshape with
  | none => d
  | some m => spaceReshapeAgent m d

/-- The descriptor of one agent after the range-scale phase of
`modify_observation_space` (identity when `range_scale` is unset; the
`new_dtype`-only branch is the stale-variable path handled separately in
`modify_observation_space`). -/
def spaceRangeOpt (cfg : WrapperConfig) (a : ℕ) (d : SpaceDesc) : SpaceDesc :=
  match cfg.range_scale with
  | some rs => spaceRangeAgent (rs a) (cfg.new_dtype.map (fun nd => nd a)) d
  | none => d

/-- The per-agent composition of the space-rewriting phases of
`modify_observation_space`, for configurations in which the per-agent
result does not depend on the other agents (the stale-variable
`new_dtype`-only branch excluded). -/
def spaceAgentPipeline (cfg : WrapperConfig) (a : ℕ) (d : SpaceDesc) : SpaceDesc :=
  let d4 := spaceRangeOpt cfg a (spaceReshapeOpt cfg (spaceDownOpt cfg a (spaceColorOpt cfg a d)))
  if cfg.frame_stacking > 1 then stack_obs_space_desc d4 cfg.frame_stacking else d4

/-- Example configuration for the amended C1 claim: full color reduction,
unit downscale, flatten, range scale to unit interval with float32 output,
frame stacking of depth 2. -/
def exC1cfg : WrapperConfig :=
  ⟨some (fun _ => "full"), some (fun _ => [1, 1]), some "flatten",
    some (fun _ => ((0 : ℚ), (255 : ℚ))), some (fun _ => DType.f32), false, 2⟩

/-- Example observation spaces for the amended C1 claim: one agent with a
1 by 1 RGB uint8 image. -/
def exC1spaces : ℕ → SpaceDesc := fun _ => ⟨[1, 1, 3], .u8, [0, 0, 0], [255, 255, 255]⟩

/-- Example observation for the amended C1 claim. -/
def exC1obs : NDArray := ⟨[1, 1, 3], .u8, [10, 20, 30]⟩

/-- Counterexample configuration for C1 as stated: only `down_scale` is
configured. -/
def exC1xcfg : WrapperConfig := ⟨none, some (fun _ => [1]), none, none, none, false, 1⟩

/-- Counterexample observation space for C1 as stated: a float32 vector
space. -/
def exC1xspaces : ℕ → SpaceDesc := fun _ => ⟨[2], .f32, [0, 0], [1, 1]⟩

/-- Counterexample observation for C1 as stated: a sample of the space
(each element inside the declared bounds). -/
def exC1xobs : NDArray := ⟨[2], .f32, [0, 0]⟩

/-- Failing input for C3: two agents with distinct one-element float32
bound arrays ([0] and [5]), `reshape=flatten` configured (so an earlier
space loop runs), `new_dtype=float64`, `range_scale` unset. -/
def exC3cfg : WrapperConfig :=
  ⟨none, none, some "flatten", none, some (fun _ => DType.f64), false, 1⟩

/-- Failing-input observation spaces for C3. -/
def exC3spaces : ℕ → SpaceDesc := fun n =>
  if n = 1 then ⟨[1], .f32, [5], [5]⟩ else ⟨[1], .f32, [0], [0]⟩

/-- A concrete one-agent environment over a unit state for witnesses:
agent 0 is always selected and every raw observation is the float32
vector [3, 4]. -/
def exEnvU : EnvModel Unit :=
  ⟨fun _ => 0, fun _ => ((), ⟨[2], .f32, [3, 4]⟩), fun _ _ => ⟨[2], .f32, [3, 4]⟩,
    fun s _ => (s, ⟨[2], .f32, [3, 4]⟩)⟩

/-- Configuration with only frame stacking (depth 2) enabled. -/
def exC2cfg : WrapperConfig := ⟨none, none, none, none, none, false, 2⟩

/-- Initial wrapper state for the C2 witness: every frame buffer is
`None`, as set by `__init__`. -/
def exC2st : WrapperState Unit := ⟨exC2cfg, (), fun _ => none⟩

/-- Configuration with only full color reduction enabled. -/
def exC4cfg : WrapperConfig := ⟨some (fun _ => "full"), none, none, none, none, false, 1⟩

/-- Counterexample pixel for C4 as stated: a uint8 RGB pixel (0, 3, 0),
whose luminance 1.761 rounds to 2 but is truncated to 1 by `astype`. -/
def exC4obs : NDArray := ⟨[1, 1, 3], .u8, [0, 3, 0]⟩

/-- Configuration with only `range_scale = (lo, hi)` enabled (uniform
over agents), no dtype change. -/
def rangeOnlyCfg (lo hi : ℚ) : WrapperConfig :=
  ⟨none, none, none, some (fun _ => (lo, hi)), none, false, 1⟩

/-- Witness observation for C5: a float32 vector holding the two
endpoints of the range (0, 2). -/
def exC5obs : NDArray := ⟨[2], .f32, [0, 2]⟩

/-- Example original action spaces for C7: a discrete space of size 3, a
multi-discrete space with sizes [2, 3] and a bounded box of shape
[4]. -/
def exC7orig : ℕ → ActSpace := fun n =>
  if n = 0 then .discrete 3 else if n = 1 then .multiDiscrete [2, 3] else .boxA [4] false

/-- Observation spaces for the C8 witness: agent 0 declares a non-Box
space. -/
def exC8spaces : ℕ → ObsSpace := fun n =>
  if n = 0 then .nonBox else .box ⟨[1], .f32, [0], [1]⟩

/-- Configuration with only `down_scale` enabled (uniform block sizes),
for C9. -/
def dsOnlyCfg (ds : ℕ → List ℕ) : WrapperConfig := ⟨none, some ds, none, none, none, false, 1⟩

/-- The all-disabled configuration. -/
def noneCfg : WrapperConfig := ⟨none, none, none, none, none, false, 1⟩

/-- Environment for the C10 witness: the state is the selected agent id,
and a step advances the selection to the next agent. -/
def exC10env : EnvModel ℕ :=
  ⟨fun s => s, fun s => (s, ⟨[1], .f32, [7]⟩), fun _ _ => ⟨[1], .f32, [7]⟩,
    fun s _ => (s + 1, ⟨[1], .f32, [7]⟩)⟩

/-- Wrapper state for the C10 witness: agent 0 is about to act. -/
def exC10st : WrapperState ℕ := ⟨noneCfg, 0, fun _ => none⟩

theorem sliceC_shape (a : NDArray) (c : ℕ) : (sliceC a c).shape = shapeAfterSlice a.shape := by
  rcases a with ⟨s, dt, dl⟩
  rcases s with _ | ⟨s0, _ | ⟨s1, _ | ⟨s2, rest⟩⟩⟩ <;> rfl

theorem sliceC_dtype (a : NDArray) (c : ℕ) : (sliceC a c).dtype = a.dtype := by
  rcases a with ⟨s, dt, dl⟩
  rcases s with _ | ⟨s0, _ | ⟨s1, _ | ⟨s2, rest⟩⟩⟩ <;> rfl

theorem npAverage2_shape (a : NDArray) : (npAverage2 a).shape = shapeAfterSlice a.shape := by
  rcases a with ⟨s, dt, dl⟩
  rcases s with _ | ⟨s0, _ | ⟨s1, _ | ⟨s2, rest⟩⟩⟩ <;> rfl

theorem astype_shape (a : NDArray) (d : DType) : (astype a d).shape = a.shape := rfl

theorem astype_dtype (a : NDArray) (d : DType) : (astype a d).dtype = d := rfl

theorem mkBox_shape (low high : NDArray) (d : DType) : (mkBox low high d).shape = low.shape := rfl

theorem mkBox_dtype (low high : NDArray) (d : DType) : (mkBox low high d).dtype = d := rfl

theorem colorAgent_shape (mode : String) (a : NDArray) (d : SpaceDesc)
    (h : a.shape = d.shape) :
    (dataColorAgent mode a).shape = (spaceColorAgent mode d).shape := by
  unfold dataColorAgent spaceColorAgent
  split_ifs <;>
    simp [mkBox_shape, sliceC_shape, astype_shape, npAverage2_shape, lowArr, h]

theorem colorAgent_dtype (mode : String) (a : NDArray) (d : SpaceDesc)
    (h : a.dtype = d.dtype) :
    (dataColorAgent mode a).dtype = (spaceColorAgent mode d).dtype := by
  unfold dataColorAgent spaceColorAgent
  split_ifs <;> simp [mkBox_dtype, sliceC_dtype, astype_dtype, h]

theorem runPhase_nil (f : ℕ → SpaceDesc → SpaceDesc) (st : (ℕ → SpaceDesc) × Option SpaceDesc) :
    runPhase f [] st = st := rfl

theorem runPhase_cons (f : ℕ → SpaceDesc → SpaceDesc) (x : ℕ) (xs : List ℕ)
    (st : (ℕ → SpaceDesc) × Option SpaceDesc) :
    runPhase f (x :: xs) st =
      runPhase f xs (Function.update st.1 x (f x (st.1 x)), some (st.1 x)) := rfl

theorem runPhase_not_mem (f : ℕ → SpaceDesc → SpaceDesc) (agents : List ℕ)
    (st : (ℕ → SpaceDesc) × Option SpaceDesc) (a : ℕ) (ha : a ∉ agents) :
    (runPhase f agents st).1 a = st.1 a := by
  induction agents generalizing st with
  | nil => rfl
  | cons x xs ih =>
    rw [runPhase_cons, ih _ (fun hm => ha (List.mem_cons_of_mem _ hm))]
    exact Function.update_noteq (fun he => ha (by rw [he]; exact List.mem_cons_self x xs)) _ _

theorem runPhase_lookup (f : ℕ → SpaceDesc → SpaceDesc) (agents : List ℕ)
    (st : (ℕ → SpaceDesc) × Option SpaceDesc) (a : ℕ) (hnd : agents.Nodup)
    (ha : a ∈ agents) :
    (runPhase f agents st).1 a = f a (st.1 a) := by
  induction agents generalizing st with
  | nil => cases ha
  | cons x xs ih =>
    rw [runPhase_cons]
    rcases List.nodup_cons.mp hnd with ⟨hx, hxs⟩
    rcases List.mem_cons.mp ha with rfl | hm
    · rw [runPhase_not_mem _ _ _ _ hx]
      simp
    · have hne : a ≠ x := fun he => hx (by rw [← he]; exact hm)
      rw [ih _ hxs hm]
      simp [Function.update_noteq hne]

theorem stackPhase_apply (cfg : WrapperConfig) (sp : ℕ → SpaceDesc) (a : ℕ) :
    stackPhase cfg sp a =
      if cfg.frame_stacking > 1 then stack_obs_space_desc (sp a) cfg.frame_stacking
      else sp a := by
  unfold stackPhase
  split <;> rfl

theorem phaseAt_none {β : Type} (g : β → ℕ → SpaceDesc → SpaceDesc) (agents : List ℕ)
    (st : (ℕ → SpaceDesc) × Option SpaceDesc) : phaseAt none g agents st = st := rfl

theorem phaseAt_some {β : Type} (x : β) (g : β → ℕ → SpaceDesc → SpaceDesc)
    (agents : List ℕ) (st : (ℕ → SpaceDesc) × Option SpaceDesc) :
    phaseAt (some x) g agents st = runPhase (g x) agents st := rfl

theorem mos_lookup (cfg : WrapperConfig) (agents : List ℕ) (spaces : ℕ → SpaceDesc)
    (hnd : agents.Nodup) (a : ℕ) (ha : a ∈ agents)
    (hexc : cfg.new_dtype = none ∨ cfg.range_scale.isSome) :
    ∃ f, modify_observation_space cfg agents spaces = some f ∧
      f a = spaceAgentPipeline cfg a (spaces a) := by
  have hcol : ∀ st : (ℕ → SpaceDesc) × Option SpaceDesc,
      (phaseAt cfg.color_reduction (fun cr a d => spaceColorAgent (cr a) d) agents st).1 a =
        spaceColorOpt cfg a (st.1 a) := by
    intro st
    cases hc : cfg.color_reduction with
    | none => simp [phaseAt_none, spaceColorOpt, hc]
    | some cr => simp [phaseAt_some, runPhase_lookup _ _ _ _ hnd ha, spaceColorOpt, hc]
  have hdown : ∀ st : (ℕ → SpaceDesc) × Option SpaceDesc,
      (phaseAt cfg.down_scale (fun ds a d => spaceDownAgent (ds a) d) agents st).1 a =
        spaceDownOpt cfg a (st.1 a) := by
    intro st
    cases hc : cfg.down_scale with
    | none => simp [phaseAt_none, spaceDownOpt, hc]
    | some ds => simp [phaseAt_some, runPhase_lookup _ _ _ _ hnd ha, spaceDownOpt, hc]
  have hresh : ∀ st : (ℕ → SpaceDesc) × Option SpaceDesc,
      (phaseAt cfg.reshape (fun m _ d => spaceReshapeAgent m d) agents st).1 a =
        spaceReshapeOpt cfg (st.1 a) := by
    intro st
    cases hc : cfg.reshape with
    | none => simp [phaseAt_none, spaceReshapeOpt, hc]
    | some m => simp [phaseAt_some, runPhase_lookup _ _ _ _ hnd ha, spaceReshapeOpt, hc]
  cases hrs : cfg.range_scale with
  | some rs =>
    refine ⟨_, by rw [modify_observation_space, hrs], ?_⟩
    rw [stackPhase_apply, runPhase_lookup _ _ _ _ hnd ha, hresh, hdown, hcol]
    simp [spaceAgentPipeline, spaceRangeOpt, hrs]
  | none =>
    cases hnew : cfg.new_dtype with
    | some nd =>
      rcases hexc with h | h
      · rw [hnew] at h; cases h
      · rw [hrs] at h; cases h
    | none =>
      refine ⟨_, by rw [modify_observation_space, hrs, hnew], ?_⟩
      rw [stackPhase_apply, hresh, hdown, hcol]
      simp [spaceAgentPipeline, spaceRangeOpt, hrs]

theorem spaceColorAgent_dtype (mode : String) (d : SpaceDesc) :
    (spaceColorAgent mode d).dtype = d.dtype := by
  unfold spaceColorAgent
  split_ifs <;> simp [mkBox_dtype]

theorem spaceColorOpt_dtype (cfg : WrapperConfig) (a : ℕ) (d : SpaceDesc) :
    (spaceColorOpt cfg a d).dtype = d.dtype := by
  cases hc : cfg.color_reduction with
  | none => simp [spaceColorOpt, hc]
  | some cr => simp [spaceColorOpt, hc, spaceColorAgent_dtype]

theorem dataColorOpt_shape (cfg : WrapperConfig) (a : ℕ) (obs : NDArray) (d : SpaceDesc)
    (h : obs.shape = d.shape) :
    (dataColorOpt cfg a obs).shape = (spaceColorOpt cfg a d).shape := by
  cases hc : cfg.color_reduction with
  | none => simp [dataColorOpt, spaceColorOpt, hc, h]
  | some cr => simp [dataColorOpt, spaceColorOpt, hc, colorAgent_shape _ _ _ h]

theorem dataColorOpt_dtype (cfg : WrapperConfig) (a : ℕ) (obs : NDArray) (d : SpaceDesc)
    (h : obs.dtype = d.dtype) :
    (dataColorOpt cfg a obs).dtype = (spaceColorOpt cfg a d).dtype := by
  cases hc : cfg.color_reduction with
  | none => simp [dataColorOpt, spaceColorOpt, hc, h]
  | some cr => simp [dataColorOpt, spaceColorOpt, hc, colorAgent_dtype _ _ _ h]

theorem blockReduceU8_shape (a : NDArray) (bs : List ℕ) :
    (blockReduceU8 a bs).shape = List.zipWith (fun s b => (s + b - 1) / b) a.shape bs := rfl

theorem blockReduceU8_dtype (a : NDArray) (bs : List ℕ) : (blockReduceU8 a bs).dtype = .u8 :=
  rfl

theorem spaceDownAgent_shape (ds : List ℕ) (d : SpaceDesc) :
    (spaceDownAgent ds d).shape =
      (List.range d.shape.length).map (fun i => d.shape.getD i 0 / ds.getD i 0) := rfl

theorem spaceDownAgent_dtype (ds : List ℕ) (d : SpaceDesc) :
    (spaceDownAgent ds d).dtype = d.dtype := rfl

theorem down_shape_eq (shape bs : List ℕ)
    (h : List.Forall₂ (fun s b => 0 < b ∧ b ∣ s) shape bs) :
    List.zipWith (fun s b => (s + b - 1) / b) shape bs =
      (List.range shape.length).map (fun i => shape.getD i 0 / bs.getD i 0) := by
  induction h with
  | nil => rfl
  | @cons s b l1 l2 hp _ ih =>
    obtain ⟨hb, hdvd⟩ := hp
    obtain ⟨k, rfl⟩ := hdvd
    rw [List.zipWith_cons_cons, List.length_cons, List.range_succ_eq_map, List.map_cons,
      List.map_map]
    have hhead : (b * k + b - 1) / b = (b * k :: l1).getD 0 0 / ((b :: l2).getD 0 0) := by
      simp only [List.getD_cons_zero]
      rw [Nat.add_sub_assoc hb, Nat.mul_add_div hb,
        Nat.div_eq_of_lt (Nat.sub_lt hb Nat.one_pos), Nat.mul_div_cancel_left _ hb,
        Nat.add_zero]
    rw [hhead, ih]
    congr 1

theorem dataDownOpt_shape (cfg : WrapperConfig) (a : ℕ) (obs : NDArray) (d1 : SpaceDesc)
    (h : obs.shape = d1.shape)
    (hds : ∀ ds, cfg.down_scale = some ds →
      List.Forall₂ (fun s b => 0 < b ∧ b ∣ s) d1.shape (ds a)) :
    (dataDownOpt cfg a obs).shape = (spaceDownOpt cfg a d1).shape := by
  cases hc : cfg.down_scale with
  | none => simp [dataDownOpt, spaceDownOpt, hc, h]
  | some ds =>
    simp only [dataDownOpt, spaceDownOpt, hc]
    rw [blockReduceU8_shape, spaceDownAgent_shape, h, down_shape_eq _ _ (hds ds hc)]

theorem dataDownOpt_dtype (cfg : WrapperConfig) (a : ℕ) (obs : NDArray) (d1 : SpaceDesc)
    (h : obs.dtype = d1.dtype)
    (hu8 : ∀ ds, cfg.down_scale = some ds → d1.dtype = .u8) :
    (dataDownOpt cfg a obs).dtype = (spaceDownOpt cfg a d1).dtype := by
  cases hc : cfg.down_scale with
  | none => simp [dataDownOpt, spaceDownOpt, hc, h]
  | some ds =>
    simp only [dataDownOpt, spaceDownOpt, hc]
    rw [blockReduceU8_dtype, spaceDownAgent_dtype, hu8 ds hc]

theorem dataReshapeOpt_shape (cfg : WrapperConfig) (obs : NDArray) (d : SpaceDesc)
    (h : obs.shape = d.shape) :
    (dataReshapeOpt cfg obs).shape = (spaceReshapeOpt cfg d).shape := by
  cases hc : cfg.reshape with
  | none => simp [dataReshapeOpt, spaceReshapeOpt, hc, h]
  | some m =>
    simp only [dataReshapeOpt, spaceReshapeOpt, hc, dataReshape, spaceReshapeAgent]
    split_ifs <;> simp [mkBox_shape, expandDims, flattenArr, lowArr, h]

theorem dataReshapeOpt_dtype (cfg : WrapperConfig) (obs : NDArray) (d : SpaceDesc)
    (h : obs.dtype = d.dtype) :
    (dataReshapeOpt cfg obs).dtype = (spaceReshapeOpt cfg d).dtype := by
  cases hc : cfg.reshape with
  | none => simp [dataReshapeOpt, spaceReshapeOpt, hc, h]
  | some m =>
    simp only [dataReshapeOpt, spaceReshapeOpt, hc, dataReshape, spaceReshapeAgent]
    split_ifs <;> simp [mkBox_dtype, expandDims, flattenArr, h]

theorem dataRangeOpt_shape (cfg : WrapperConfig) (a : ℕ) (obs : NDArray) (d : SpaceDesc)
    (h : obs.shape = d.shape)
    (hexc : cfg.new_dtype = none ∨ cfg.range_scale.isSome) :
    (dataRangeOpt cfg a obs).shape = (spaceRangeOpt cfg a d).shape := by
  cases hrs : cfg.range_scale with
  | some rs => simp [dataRangeOpt, spaceRangeOpt, hrs, dataRangeAgent, spaceRangeAgent,
      mkBox_shape, h]
  | none =>
    cases hnew : cfg.new_dtype with
    | some nd =>
      rcases hexc with hx | hx
      · rw [hnew] at hx; cases hx
      · rw [hrs] at hx; cases hx
    | none => simp [dataRangeOpt, spaceRangeOpt, hrs, hnew, h]

theorem dataRangeOpt_dtype (cfg : WrapperConfig) (a : ℕ) (obs : NDArray) (d : SpaceDesc)
    (h : obs.dtype = d.dtype)
    (hexc : cfg.new_dtype = none ∨ cfg.range_scale.isSome) :
    (dataRangeOpt cfg a obs).dtype = (spaceRangeOpt cfg a d).dtype := by
  cases hrs : cfg.range_scale with
  | some rs =>
    simp only [dataRangeOpt, spaceRangeOpt, hrs, dataRangeAgent, spaceRangeAgent, mkBox_dtype]
    cases hnew : cfg.new_dtype <;> simp [hnew, h]
  | none =>
    cases hnew : cfg.new_dtype with
    | some nd =>
      rcases hexc with hx | hx
      · rw [hnew] at hx; cases hx
      · rw [hrs] at hx; cases hx
    | none => simp [dataRangeOpt, spaceRangeOpt, hrs, hnew, h]

theorem concatLast_cons_shape (f : NDArray) (fs : List NDArray) :
    (concatLast (f :: fs)).shape = stackShape f.shape (fs.length + 1) := rfl

theorem concatLast_cons_dtype (f : NDArray) (fs : List NDArray) :
    (concatLast (f :: fs)).dtype = f.dtype := rfl

theorem concatLast_replicate_shape (t : NDArray) (n : ℕ) :
    (concatLast (List.replicate (n + 1) t)).shape = stackShape t.shape (n + 1) := by
  rw [List.replicate_succ, concatLast_cons_shape, List.length_replicate]

theorem concatLast_replicate_dtype (t : NDArray) (n : ℕ) :
    (concatLast (List.replicate (n + 1) t)).dtype = t.dtype := by
  rw [List.replicate_succ, concatLast_cons_dtype]

theorem stack_obs_space_desc_shape (d : SpaceDesc) (k : ℕ) :
    (stack_obs_space_desc d k).shape = stackShape d.shape k := rfl

theorem stack_obs_space_desc_dtype (d : SpaceDesc) (k : ℕ) :
    (stack_obs_space_desc d k).dtype = d.dtype := rfl

theorem preStack_shape (cfg : WrapperConfig) (a : ℕ) (spaces : ℕ → SpaceDesc) (obs : NDArray)
    (hsh : obs.shape = (spaces a).shape)
    (hds : ∀ ds, cfg.down_scale = some ds →
      List.Forall₂ (fun s b => 0 < b ∧ b ∣ s) (spaceColorOpt cfg a (spaces a)).shape (ds a))
    (hexc : cfg.new_dtype = none ∨ cfg.range_scale.isSome) :
    (preStackTransform cfg a obs).shape =
      (spaceRangeOpt cfg a
        (spaceReshapeOpt cfg (spaceDownOpt cfg a (spaceColorOpt cfg a (spaces a))))).shape := by
  have h1s := dataColorOpt_shape cfg a obs (spaces a) hsh
  have h2s := dataDownOpt_shape cfg a _ _ h1s hds
  have h3s := dataReshapeOpt_shape cfg _ _ h2s
  exact dataRangeOpt_shape cfg a _ _ h3s hexc

theorem preStack_dtype (cfg : WrapperConfig) (a : ℕ) (spaces : ℕ → SpaceDesc) (obs : NDArray)
    (hdt : obs.dtype = (spaces a).dtype)
    (hu8 : ∀ ds, cfg.down_scale = some ds → (spaces a).dtype = DType.u8)
    (hexc : cfg.new_dtype = none ∨ cfg.range_scale.isSome) :
    (preStackTransform cfg a obs).dtype =
      (spaceRangeOpt cfg a
        (spaceReshapeOpt cfg (spaceDownOpt cfg a (spaceColorOpt cfg a (spaces a))))).dtype := by
  have h1d := dataColorOpt_dtype cfg a obs (spaces a) hdt
  have h2d := dataDownOpt_dtype cfg a _ _ h1d
    (fun ds hc => by rw [spaceColorOpt_dtype]; exact hu8 ds hc)
  have h3d := dataReshapeOpt_dtype cfg _ _ h2d
  exact dataRangeOpt_dtype cfg a _ _ h3d hexc

/-- C1 (amended): for every agent and every validated transform
configuration in which (i) any configured downscale applies to a `uint8`
observation space with block sizes that divide the corresponding extents
(the data path hard-codes a `uint8` block mean and a padded ceiling
shape) and (ii) `new_dtype` is only used together with `range_scale`
(the `new_dtype`-only space branch reads a stale variable), the shape and
dtype of the array returned by `modify_observation` (including frame
stacking, starting from the initial empty frame buffer) equal the shape
and dtype of the descriptor computed at construction by
`modify_observation_space` for that agent, for every observation with
the shape and dtype of the agent's original declared space. -/
theorem C1_shape_dtype_invariant (cfg : WrapperConfig) (agents : List ℕ)
    (spaces : ℕ → SpaceDesc) (hnd : agents.Nodup) (a : ℕ) (ha : a ∈ agents)
    (obs : NDArray) (hsh : obs.shape = (spaces a).shape)
    (hdt : obs.dtype = (spaces a).dtype)
    (hds : ∀ ds, cfg.down_scale = some ds →
      List.Forall₂ (fun s b => 0 < b ∧ b ∣ s) (spaceColorOpt cfg a (spaces a)).shape (ds a) ∧
        (spaces a).dtype = DType.u8)
    (hexc : cfg.new_dtype = none ∨ cfg.range_scale.isSome) :
    ∃ f, modify_observation_space cfg agents spaces = some f ∧
      (modify_observation cfg a obs none).1.shape = (f a).shape ∧
      (modify_observation cfg a obs none).1.dtype = (f a).dtype := by
  obtain ⟨f, hf, hfa⟩ := mos_lookup cfg agents spaces hnd a ha hexc
  refine ⟨f, hf, ?_⟩
  rw [hfa]
  have hps := preStack_shape cfg a spaces obs hsh (fun ds hc => (hds ds hc).1) hexc
  have hpd := preStack_dtype cfg a spaces obs hdt (fun ds hc => (hds ds hc).2) hexc
  simp only [modify_observation, spaceAgentPipeline]
  by_cases hk : cfg.frame_stacking > 1
  · obtain ⟨n, hn⟩ : ∃ n, cfg.frame_stacking = n + 1 := ⟨cfg.frame_stacking - 1, by omega⟩
    rw [hn] at hk
    simp only [hn, stackPush, hk, if_true]
    rw [concatLast_replicate_shape, concatLast_replicate_dtype, stack_obs_space_desc_shape,
      stack_obs_space_desc_dtype, hps, hpd]
    exact ⟨rfl, rfl⟩
  · simp only [stackPush, hk, if_false]
    exact ⟨hps, hpd⟩

/-- C1 (counterexample to the claim as stated): with `down_scale`
configured on a float32 observation space, `modify_observation_space`
declares dtype float32 for the agent while `modify_observation` returns a
uint8 array (its block mean hard-codes `dtype=np.uint8`), for an
observation drawn from the declared space; the shapes agree, the dtypes
do not. -/
theorem C1_counterexample :
    (modify_observation_space exC1xcfg [0] exC1xspaces).map (fun f => (f 0).dtype) =
      some DType.f32 ∧
    (modify_observation_space exC1xcfg [0] exC1xspaces).map (fun f => (f 0).shape) =
      some [2] ∧
    (modify_observation exC1xcfg 0 exC1xobs none).1.dtype = DType.u8 ∧
    (modify_observation exC1xcfg 0 exC1xobs none).1.shape = [2] ∧
    DType.u8 ≠ DType.f32 := by
  refine ⟨?_, ?_, ?_, ?_, by simp⟩ <;>
    simp [modify_observation_space, exC1xcfg, exC1xspaces, exC1xobs, phaseAt, runPhase,
      spaceDownAgent, mkBox, stackPhase, modify_observation, preStackTransform, dataColorOpt,
      dataDownOpt, dataReshapeOpt, dataRangeOpt, blockReduceU8, lowArr, highArr,
      List.range_succ]

theorem exC1_hds : ∀ ds, exC1cfg.down_scale = some ds →
    List.Forall₂ (fun s b => 0 < b ∧ b ∣ s) (spaceColorOpt exC1cfg 0 (exC1spaces 0)).shape
      (ds 0) ∧ (exC1spaces 0).dtype = DType.u8 := by
  intro ds h
  simp only [exC1cfg, Option.some.injEq] at h
  subst h
  refine ⟨?_, rfl⟩
  have hsh2 : (spaceColorOpt exC1cfg 0 (exC1spaces 0)).shape = [1, 1] := by
    simp [spaceColorOpt, exC1cfg, spaceColorAgent, mkBox, astype, npAverage2, lowArr,
      exC1spaces]
  rw [hsh2]
  exact List.Forall₂.cons ⟨Nat.one_pos, dvd_refl 1⟩
    (List.Forall₂.cons ⟨Nat.one_pos, dvd_refl 1⟩ List.Forall₂.nil)

/-- Witness for C1 (amended) at a concrete input: one uint8 RGB agent
with the full transform chain enabled. -/
theorem C1_shape_dtype_invariant_witness :
    exC1obs.shape = (exC1spaces 0).shape ∧ exC1obs.dtype = (exC1spaces 0).dtype ∧
    ∃ f, modify_observation_space exC1cfg [0] exC1spaces = some f ∧
      (modify_observation exC1cfg 0 exC1obs none).1.shape = (f 0).shape ∧
      (modify_observation exC1cfg 0 exC1obs none).1.dtype = (f 0).dtype :=
  ⟨rfl, rfl,
    C1_shape_dtype_invariant exC1cfg [0] exC1spaces (by simp) 0 (by simp) exC1obs rfl rfl
      exC1_hds (Or.inr rfl)⟩

/-- C3: with `new_dtype` set and `range_scale` unset, the space phase
does NOT recast each agent's own bounds: line 262 reads the Python local
`obs_space` left over from the previous loop, so agent 0's descriptor
receives agent 1's pre-reshape bounds `[5]` instead of its own `[0]`
(and a `NameError` would be raised had no earlier loop run).  This
contradicts the claim, whose intended result for agent 0 is
`Box(low=[0], high=[0], float64)`. -/
theorem C3_stale_bounds :
    (modify_observation_space exC3cfg [0, 1] exC3spaces).map (fun f => f 0) =
      some ⟨[1], DType.f64, [5], [5]⟩ ∧
    (modify_observation_space exC3cfg [0, 1] exC3spaces).map (fun f => f 0) ≠
      some ⟨[1], DType.f64, [0], [0]⟩ := by
  have h : (modify_observation_space exC3cfg [0, 1] exC3spaces).map (fun f => f 0) =
      some ⟨[1], DType.f64, [5], [5]⟩ := by
    simp [modify_observation_space, exC3cfg, exC3spaces, phaseAt, runPhase,
      spaceReshapeAgent, mkBox, flattenArr, lowArr, highArr, stackPhase, castValue,
      Function.update]
  refine ⟨h, ?_⟩
  rw [h]
  intro hcontra
  have := (Option.some.injEq _ _).mp hcontra
  simp [SpaceDesc.mk.injEq] at this

/-- C2: with frame-stack depth k greater than 1 and the agent frame
buffer still in its initial `None` state, a `reset` call establishes the
buffer by replicating the first transformed observation across all k
slots, and returns the k identical slots concatenated: every slot of the
returned stack equals the first transformed observation. -/
theorem C2_reset_replicates {S : Type} (env : EnvModel S) (st : WrapperState S)
    (hk : 1 < st.cfg.frame_stacking)
    (hbuf : st.stack_of_frames (env.agent_selection (env.resetE st.envState).1) = none) :
    (wrapperReset env st true).2 =
      some (concatLast (List.replicate st.cfg.frame_stacking
        (preStackTransform st.cfg (env.agent_selection (env.resetE st.envState).1)
          (env.resetE st.envState).2))) ∧
    (wrapperReset env st true).1.stack_of_frames
        (env.agent_selection (env.resetE st.envState).1) =
      some (List.replicate st.cfg.frame_stacking
        (preStackTransform st.cfg (env.agent_selection (env.resetE st.envState).1)
          (env.resetE st.envState).2)) ∧
    ∀ fr ∈ List.replicate st.cfg.frame_stacking
        (preStackTransform st.cfg (env.agent_selection (env.resetE st.envState).1)
          (env.resetE st.envState).2),
      fr = preStackTransform st.cfg (env.agent_selection (env.resetE st.envState).1)
        (env.resetE st.envState).2 := by
  have hmo : modify_observation st.cfg (env.agent_selection (env.resetE st.envState).1)
      (env.resetE st.envState).2
      (st.stack_of_frames (env.agent_selection (env.resetE st.envState).1)) =
      (concatLast (List.replicate st.cfg.frame_stacking
        (preStackTransform st.cfg (env.agent_selection (env.resetE st.envState).1)
          (env.resetE st.envState).2)),
        some (List.replicate st.cfg.frame_stacking
          (preStackTransform st.cfg (env.agent_selection (env.resetE st.envState).1)
            (env.resetE st.envState).2))) := by
    unfold modify_observation
    rw [hbuf]
    simp only [stackPush, hk, if_true]
  refine ⟨?_, ?_, fun fr hf => List.eq_of_mem_replicate hf⟩
  · simp [wrapperReset, hmo]
  · simp [wrapperReset, hmo]

/-- Witness for C2 at a concrete input: a one-agent environment, frame
stacking of depth 2, fresh buffers. -/
theorem C2_reset_replicates_witness :
    1 < exC2st.cfg.frame_stacking ∧
    ((wrapperReset exEnvU exC2st true).2 =
        some (concatLast (List.replicate 2 (preStackTransform exC2cfg 0 ⟨[2], .f32, [3, 4]⟩))) ∧
      (wrapperReset exEnvU exC2st true).1.stack_of_frames 0 =
        some (List.replicate 2 (preStackTransform exC2cfg 0 ⟨[2], .f32, [3, 4]⟩)) ∧
      ∀ fr ∈ List.replicate 2 (preStackTransform exC2cfg 0 ⟨[2], .f32, [3, 4]⟩),
        fr = preStackTransform exC2cfg 0 ⟨[2], .f32, [3, 4]⟩) :=
  ⟨by decide, C2_reset_replicates exEnvU exC2st (by decide) rfl⟩

theorem truncQ_nonneg_eq_floor (q : ℚ) (h : 0 ≤ q) : truncQ q = ⌊q⌋ := by
  unfold truncQ
  rw [Rat.floor_def]
  exact Int.tdiv_eq_ediv (Rat.num_nonneg.mpr h) (Int.ofNat_nonneg _)

theorem castValue_u8_of_nonneg (q : ℚ) (h0 : 0 ≤ q) (h1 : ⌊q⌋ < 256) :
    castValue .u8 q = ((⌊q⌋ : ℤ) : ℚ) := by
  show ((truncQ q % 256 : ℤ) : ℚ) = ((⌊q⌋ : ℤ) : ℚ)
  rw [truncQ_nonneg_eq_floor q h0, Int.emod_eq_of_lt (Int.floor_nonneg.mpr h0) h1]

/-- C4 (amended): for full color reduction, each output pixel of
`modify_observation` equals the luminance `0.299 R + 0.587 G + 0.114 B`
CAST to the original dtype — for an integer dtype this is C-style
truncation toward zero (`astype`), NOT rounding. -/
theorem C4_luminance_truncation (a : NDArray) (s0 s1 : ℕ)
    (hsh : a.shape = [s0, s1, 3]) (i : ℕ) (hi : i < s0 * s1) :
    (modify_observation exC4cfg 0 a none).1.data.getD i 0 =
      castValue a.dtype
        (299/1000 * a.data.getD (i * 3) 0 + 587/1000 * a.data.getD (i * 3 + 1) 0 +
          114/1000 * a.data.getD (i * 3 + 2) 0) := by
  rcases a with ⟨s, dt, dl⟩
  simp only at hsh
  subst hsh
  have h1 : modify_observation exC4cfg 0 ⟨[s0, s1, 3], dt, dl⟩ none =
      (astype (npAverage2 ⟨[s0, s1, 3], dt, dl⟩) dt, none) := by
    simp [modify_observation, exC4cfg, preStackTransform, dataColorOpt, dataColorAgent,
      dataDownOpt, dataReshapeOpt, dataRangeOpt]
  rw [h1]
  simp only [astype, npAverage2]
  rw [List.getD_eq_getElem?_getD, List.getElem?_map, List.getElem?_map,
    List.getElem?_range hi]
  simp only [Option.map_some', Option.getD_some]
  congr 1
  simp [lumWeights, List.range_succ]
  ring

/-- C4 (counterexample to the claim as stated): on the uint8 pixel
(R, G, B) = (0, 3, 0), whose luminance is 1.761, the code produces 1
(truncation by `astype`), while `round(0.299 R + 0.587 G + 0.114 B)`
is 2. -/
theorem C4_counterexample :
    (modify_observation exC4cfg 0 exC4obs none).1.data.getD 0 0 = 1 ∧
    round ((299/1000 : ℚ) * 0 + 587/1000 * 3 + 114/1000 * 0) = 2 ∧
    (1 : ℚ) ≠ ((2 : ℤ) : ℚ) := by
  refine ⟨?_, by rw [round_eq]; norm_num, by norm_num⟩
  have heval : (modify_observation exC4cfg 0 exC4obs none).1.data.getD 0 0 =
      castValue .u8 (1761/1000) := by
    have h1 : modify_observation exC4cfg 0 exC4obs none =
        (astype (npAverage2 exC4obs) .u8, none) := by
      simp [modify_observation, exC4cfg, exC4obs, preStackTransform, dataColorOpt,
        dataColorAgent, dataDownOpt, dataReshapeOpt, dataRangeOpt]
    rw [h1]
    simp only [astype, npAverage2, exC4obs]
    simp [lumWeights, List.range_succ]
    congr 1
    norm_num
  rw [heval, castValue_u8_of_nonneg _ (by norm_num) (by norm_num)]
  norm_num

/-- Witness for C4 (amended) at the concrete pixel (0, 3, 0). -/
theorem C4_luminance_truncation_witness :
    exC4obs.shape = [1, 1, 3] ∧ 0 < 1 * 1 ∧
    (modify_observation exC4cfg 0 exC4obs none).1.data.getD 0 0 =
      castValue exC4obs.dtype
        (299/1000 * exC4obs.data.getD 0 0 + 587/1000 * exC4obs.data.getD 1 0 +
          114/1000 * exC4obs.data.getD 2 0) :=
  ⟨rfl, by decide, C4_luminance_truncation exC4obs 1 1 rfl 0 (by decide)⟩

theorem castValue_zero (d : DType) : castValue d 0 = 0 := by
  cases d <;> simp [castValue, truncQ]

theorem castValue_one (d : DType) : castValue d 1 = 1 := by
  cases d <;> simp [castValue, truncQ]

theorem dataRange_getD (lo hi : ℚ) (obs : NDArray) (j : ℕ) (hj : j < obs.data.length) :
    (modify_observation (rangeOnlyCfg lo hi) 0 obs none).1.data.getD j 0 =
      castValue obs.dtype ((obs.data.getD j 0 - lo) / (hi - lo)) := by
  have h1 : modify_observation (rangeOnlyCfg lo hi) 0 obs none =
      (dataRangeAgent (lo, hi) none obs, none) := by
    simp [modify_observation, rangeOnlyCfg, preStackTransform, dataColorOpt, dataDownOpt,
      dataReshapeOpt, dataRangeOpt]
  rw [h1]
  simp only [dataRangeAgent, npDivCast, Option.getD_none]
  rw [List.getD_eq_getElem?_getD, List.getElem?_map, List.getElem?_eq_getElem hj]
  rw [List.getD_eq_getElem?_getD, List.getElem?_eq_getElem hj]
  rfl

/-- C5: for `range_scale = (lo, hi)` with `lo < hi` and no dtype change,
the data-level rescaling `(x - lo) / (hi - lo)` of `modify_observation`
maps an element equal to `lo` to exactly 0 and an element equal to `hi`
to exactly 1 (exact in every dtype: casting fixes 0 and 1). -/
theorem C5_range_scale_endpoints (lo hi : ℚ) (h : lo < hi) (obs : NDArray) (j : ℕ)
    (hj : j < obs.data.length) :
    (obs.data.getD j 0 = lo →
      (modify_observation (rangeOnlyCfg lo hi) 0 obs none).1.data.getD j 0 = 0) ∧
    (obs.data.getD j 0 = hi →
      (modify_observation (rangeOnlyCfg lo hi) 0 obs none).1.data.getD j 0 = 1) := by
  constructor
  · intro hx
    rw [dataRange_getD lo hi obs j hj, hx, sub_self, zero_div, castValue_zero]
  · intro hx
    rw [dataRange_getD lo hi obs j hj, hx,
      div_self (sub_ne_zero.mpr (ne_of_gt h)), castValue_one]

/-- Witness for C5 at the concrete range (0, 2) on the observation
[0, 2]: element 0 equals the lower bound and maps to 0; element 1 equals
the upper bound and maps to 1. -/
theorem C5_range_scale_endpoints_witness :
    (0 : ℚ) < 2 ∧
    (exC5obs.data.getD 0 0 = 0 →
      (modify_observation (rangeOnlyCfg 0 2) 0 exC5obs none).1.data.getD 0 0 = 0) ∧
    (exC5obs.data.getD 0 0 = 2 →
      (modify_observation (rangeOnlyCfg 0 2) 0 exC5obs none).1.data.getD 0 0 = 1) :=
  ⟨by norm_num, C5_range_scale_endpoints 0 2 (by norm_num) exC5obs 0 (by simp [exC5obs])⟩

theorem lookupA_const (agents : List ℕ) (s : String) (a : ℕ) (ha : a ∈ agents) :
    lookupA (agents.map (fun x => (x, s))) a = some s := by
  induction agents with
  | nil => cases ha
  | cons x xs ih =>
    rcases List.mem_cons.mp ha with rfl | hm
    · simp [lookupA]
    · by_cases hax : x = a
      · subst hax; simp [lookupA]
      · simp only [lookupA, List.map_cons]
        rw [List.find?_cons_of_neg _ (by simpa using hax)]
        exact ih hm

theorem check_color_fold_ok (m : List (ℕ × String)) (shapes : ℕ → List ℕ)
    (agents : List ℕ)
    (h : ∀ a ∈ agents, ∃ w, checkColorAgent m shapes a = .ok w) :
    ∀ ws0, ∃ ws, agents.foldlM
      (fun ws a => (checkColorAgent m shapes a).map (fun w => ws ++ w)) ws0 = .ok ws := by
  induction agents with
  | nil => exact fun ws0 => ⟨ws0, rfl⟩
  | cons x xs ih =>
    intro ws0
    obtain ⟨w, hw⟩ := h x (List.mem_cons_self x xs)
    obtain ⟨ws, hws⟩ := ih (fun a hm => h a (List.mem_cons_of_mem _ hm)) (ws0 ++ w)
    exact ⟨ws, by rw [List.foldlM_cons, hw]; simpa [Except.map] using hws⟩

theorem check_color_fold_error (m : List (ℕ × String)) (shapes : ℕ → List ℕ)
    (agents : List ℕ) (a : ℕ) (ha : a ∈ agents) (e : String)
    (he : checkColorAgent m shapes a = .error e) :
    ∀ ws0, ∃ e2, agents.foldlM
      (fun ws a => (checkColorAgent m shapes a).map (fun w => ws ++ w)) ws0 = .error e2 := by
  induction agents with
  | nil => cases ha
  | cons x xs ih =>
    intro ws0
    cases hx : checkColorAgent m shapes x with
    | error e3 => exact ⟨e3, by rw [List.foldlM_cons, hx]; rfl⟩
    | ok w =>
      rcases List.mem_cons.mp ha with rfl | hm
      · rw [hx] at he; cases he
      · obtain ⟨e2, he2⟩ := ih hm (ws0 ++ w)
        exact ⟨e2, by rw [List.foldlM_cons, hx]; simpa [Except.map] using he2⟩

/-- C6: a scalar `color_reduction="full"` is normalized (line 92) to a
per-agent dict assigning `"full"` to every agent, and validation
succeeds when every target space is 3-dimensional; conversely a dict
that omits any agent id fails the per-agent key assert
(`ConfigError`). -/
theorem C6_config_normalization (agents : List ℕ) (shapes : ℕ → List ℕ)
    (h3 : ∀ a ∈ agents, (shapes a).length = 3) :
    (∃ ws, check_color_reduction (some (.scalar "full")) agents shapes =
      .ok (some (normalizeStrParam agents (.scalar "full")), ws)) ∧
    (∀ a ∈ agents, lookupA (normalizeStrParam agents (.scalar "full")) a = some "full") ∧
    (∀ m a, a ∈ agents → lookupA m a = none →
      ∃ e, check_color_reduction (some (.dict m)) agents shapes = .error e) := by
  refine ⟨?_, fun a ha => lookupA_const agents "full" a ha, ?_⟩
  · have hok : ∀ a ∈ agents, ∃ w,
        checkColorAgent (normalizeStrParam agents (.scalar "full")) shapes a = .ok w := by
      intro a ha
      refine ⟨["You have chosen true grayscaling. It might be too slow."], ?_⟩
      simp only [checkColorAgent, normalizeStrParam, lookupA_const agents "full" a ha]
      simp [COLOR_RED_LIST, h3 a ha]
    obtain ⟨ws, hws⟩ := check_color_fold_ok _ shapes agents hok []
    exact ⟨ws, by simp only [check_color_reduction]; rw [hws]; rfl⟩
  · intro m a ha hnone
    have he : checkColorAgent m shapes a = .error "Agent id is not a key of color_reduction" := by
      simp [checkColorAgent, hnone]
    obtain ⟨e2, he2⟩ := check_color_fold_error m shapes agents a ha _ he []
    refine ⟨e2, ?_⟩
    simp only [check_color_reduction, normalizeStrParam]
    rw [he2]
    rfl

/-- Witness for C6 with two agents over 3-dimensional spaces. -/
theorem C6_config_normalization_witness :
    (∀ a ∈ [0, 1], (([2, 2, 3] : List ℕ)).length = 3) ∧
    ((∃ ws, check_color_reduction (some (.scalar "full")) [0, 1] (fun _ => [2, 2, 3]) =
      .ok (some (normalizeStrParam [0, 1] (.scalar "full")), ws)) ∧
    (∀ a ∈ [0, 1], lookupA (normalizeStrParam [0, 1] (.scalar "full")) a = some "full") ∧
    (∀ m a, a ∈ [0, 1] → lookupA m a = none →
      ∃ e, check_color_reduction (some (.dict m)) [0, 1] (fun _ => [2, 2, 3]) = .error e)) :=
  ⟨by decide, C6_config_normalization [0, 1] (fun _ => [2, 2, 3]) (by decide)⟩

theorem mas_fold (orig : ℕ → ActSpace) :
    ∀ (agents : List ℕ), agents.Nodup →
      (∀ b ∈ agents, newActSpace (orig b) ≠ none) →
      ∀ sp0 : ℕ → ActSpace,
        ∃ f, agents.foldlM
            (fun sp ag => (newActSpace (orig ag)).map (fun ns => Function.update sp ag ns))
            sp0 = some f ∧
          (∀ a ∈ agents, newActSpace (orig a) = some (f a)) ∧
          (∀ a, a ∉ agents → f a = sp0 a) := by
  intro agents
  induction agents with
  | nil => exact fun _ _ sp0 => ⟨sp0, rfl, by simp, fun a _ => rfl⟩
  | cons x xs ih =>
    intro hnd hsup sp0
    rcases List.nodup_cons.mp hnd with ⟨hx, hxs⟩
    cases hox : newActSpace (orig x) with
    | none => exact absurd hox (hsup x (List.mem_cons_self x xs))
    | some nx =>
      obtain ⟨f, hf, hlook, hout⟩ :=
        ih hxs (fun b hb => hsup b (List.mem_cons_of_mem _ hb)) (Function.update sp0 x nx)
      refine ⟨f, ?_, ?_, ?_⟩
      · rw [List.foldlM_cons, hox]
        simpa using hf
      · intro a ham
        rcases List.mem_cons.mp ham with rfl | hm
        · rw [hout a hx, Function.update_same, hox]
        · exact hlook a hm
      · intro a ham
        have hne : a ≠ x := fun he => ham (by rw [he]; exact List.mem_cons_self x xs)
        rw [hout a (fun hm => ham (List.mem_cons_of_mem _ hm)),
          Function.update_noteq hne]

/-- C7: with `continuous_actions` enabled, the computed per-agent action
space is: `Discrete(n)` to an unbounded real box of length n,
`MultiDiscrete(nvec)` to an unbounded real box of length `sum(nvec)`,
and an existing `Box` unchanged. -/
theorem C7_continuous_action_space (agents : List ℕ) (orig : ℕ → ActSpace)
    (hnd : agents.Nodup) (a : ℕ) (ha : a ∈ agents)
    (hsup : ∀ b ∈ agents, newActSpace (orig b) ≠ none) :
    ∃ f, modify_action_space true agents orig = some f ∧
      (∀ n, orig a = .discrete n → f a = .boxA [n] true) ∧
      (∀ v, orig a = .multiDiscrete v → f a = .boxA [v.sum] true) ∧
      (∀ s b2, orig a = .boxA s b2 → f a = .boxA s b2) := by
  obtain ⟨f, hf, hlook, _⟩ := mas_fold orig agents hnd hsup orig
  have hfa := hlook a ha
  refine ⟨f, by simpa [modify_action_space] using hf, ?_, ?_, ?_⟩
  · intro n h
    rw [h] at hfa
    simpa [newActSpace, eq_comm] using hfa
  · intro v h
    rw [h] at hfa
    simpa [newActSpace, eq_comm] using hfa
  · intro s b2 h
    rw [h] at hfa
    simpa [newActSpace, eq_comm] using hfa

/-- Witness for C7 at three concrete agents of the three supported
kinds. -/
theorem C7_continuous_action_space_witness :
    ([0, 1, 2] : List ℕ).Nodup ∧
    (∀ b ∈ [0, 1, 2], newActSpace (exC7orig b) ≠ none) ∧
    ∃ f, modify_action_space true [0, 1, 2] exC7orig = some f ∧
      (∀ n, exC7orig 0 = .discrete n → f 0 = .boxA [n] true) ∧
      (∀ v, exC7orig 0 = .multiDiscrete v → f 0 = .boxA [v.sum] true) ∧
      (∀ s b2, exC7orig 0 = .boxA s b2 → f 0 = .boxA s b2) :=
  ⟨by decide, by decide,
    C7_continuous_action_space [0, 1, 2] exC7orig (by decide) 0 (by decide) (by decide)⟩

/-- C8: when at least one declared observation space is not a `Box`
(`_check_box_space` is false), construction emits the non-fatal warning
and skips `modify_observation_space` entirely — the declared spaces stay
the environment originals — while `observe`, `reset` and `step` still
route every raw observation through `modify_observation`. -/
theorem C8_nonbox_skips_space_rewrite {S : Type} (cfg : WrapperConfig) (agents : List ℕ)
    (spaces : ℕ → ObsSpace) (h : check_box_space agents spaces = false)
    (env : EnvModel S) (st : WrapperState S) (a : ℕ) :
    wrapperInitSpaces cfg agents spaces = some (spaces, [boxWarnMsg]) ∧
    (wrapperObserve env st a).2 =
      (modify_observation st.cfg a (env.observeE st.envState a) (st.stack_of_frames a)).1 ∧
    (wrapperReset env st true).2 =
      some (modify_observation st.cfg (env.agent_selection (env.resetE st.envState).1)
        (env.resetE st.envState).2
        (st.stack_of_frames (env.agent_selection (env.resetE st.envState).1))).1 ∧
    (∀ (sampler : List ℚ → ℕ) (origA : ℕ → ActSpace) (action act2 : ActionV),
      modify_action st.cfg sampler origA (env.agent_selection st.envState) action =
        some act2 →
      (wrapperStep env sampler origA st action true).map (fun r => r.2) =
        some (some (modify_observation st.cfg (env.agent_selection st.envState)
          (env.stepE st.envState act2).2
          (st.stack_of_frames (env.agent_selection st.envState))).1)) := by
  refine ⟨by simp [wrapperInitSpaces, h], rfl, rfl, ?_⟩
  intro sampler origA action act2 hact
  simp [wrapperStep, hact]

/-- Witness for C8: agent 0 declares a non-Box space. -/
theorem C8_nonbox_skips_space_rewrite_witness :
    check_box_space [0, 1] exC8spaces = false ∧
    wrapperInitSpaces noneCfg [0, 1] exC8spaces = some (exC8spaces, [boxWarnMsg]) ∧
    (wrapperObserve exEnvU exC2st 0).2 =
      (modify_observation exC2st.cfg 0 ⟨[2], .f32, [3, 4]⟩ none).1 :=
  ⟨by decide,
    (C8_nonbox_skips_space_rewrite noneCfg [0, 1] exC8spaces (by decide) exEnvU exC2st 0).1,
    (C8_nonbox_skips_space_rewrite noneCfg [0, 1] exC8spaces (by decide) exEnvU exC2st 0).2.1⟩

/-- C9: the downscale step of `modify_observation` hard-codes
`dtype=np.uint8` in its block mean, so the transformed observation is
uint8 whatever the input dtype, while the space-level downscale of
`modify_observation_space` preserves the declared dtype — for any
non-uint8 space the two phases disagree on dtype. -/
theorem C9_downscale_dtype (ds : ℕ → List ℕ) (a : ℕ) (obs : NDArray) (d : SpaceDesc)
    (hd : d.dtype ≠ DType.u8) :
    (modify_observation (dsOnlyCfg ds) a obs none).1.dtype = DType.u8 ∧
    ∃ f, modify_observation_space (dsOnlyCfg ds) [a] (fun _ => d) = some f ∧
      (f a).dtype = d.dtype ∧
      (modify_observation (dsOnlyCfg ds) a obs none).1.dtype ≠ (f a).dtype := by
  have hdata : (modify_observation (dsOnlyCfg ds) a obs none).1.dtype = DType.u8 := by
    simp [modify_observation, preStackTransform, dataColorOpt, dataDownOpt, dataReshapeOpt,
      dataRangeOpt, dsOnlyCfg, blockReduceU8_dtype]
  obtain ⟨f, hf, hfa⟩ := mos_lookup (dsOnlyCfg ds) [a] (fun _ => d)
    (List.nodup_singleton a) a (List.mem_singleton_self a) (Or.inl rfl)
  have hdt : (f a).dtype = d.dtype := by
    rw [hfa]
    simp [spaceAgentPipeline, spaceRangeOpt, spaceReshapeOpt, spaceDownOpt, spaceColorOpt,
      dsOnlyCfg, spaceDownAgent_dtype]
  exact ⟨hdata, f, hf, hdt, by rw [hdata, hdt]; exact fun he => hd he.symm⟩

/-- Witness for C9 on a float32 space. -/
theorem C9_downscale_dtype_witness :
    DType.f32 ≠ DType.u8 ∧
    ((modify_observation (dsOnlyCfg (fun _ => [1])) 0 exC1xobs none).1.dtype = DType.u8 ∧
    ∃ f, modify_observation_space (dsOnlyCfg (fun _ => [1])) [0]
        (fun _ => ⟨[2], .f32, [0, 0], [1, 1]⟩) = some f ∧
      (f 0).dtype = DType.f32 ∧
      (modify_observation (dsOnlyCfg (fun _ => [1])) 0 exC1xobs none).1.dtype ≠
        (f 0).dtype) :=
  ⟨by decide,
    C9_downscale_dtype (fun _ => [1]) 0 exC1xobs ⟨[2], .f32, [0, 0], [1, 1]⟩ (by decide)⟩

/-- C10: `wrapper.step` reads `env.agent_selection` BEFORE the
environment advances the turn, and uses that pre-step agent both for the
action reverse-map and for transforming (and frame-buffering) the
post-step observation — not the newly selected agent. -/
theorem C10_step_uses_pre_step_agent {S : Type} (env : EnvModel S) (sampler : List ℚ → ℕ)
    (orig : ℕ → ActSpace) (st : WrapperState S) (action act2 : ActionV)
    (h : modify_action st.cfg sampler orig (env.agent_selection st.envState) action =
      some act2) :
    wrapperStep env sampler orig st action true =
      some (⟨st.cfg, (env.stepE st.envState act2).1,
        Function.update st.stack_of_frames (env.agent_selection st.envState)
          (modify_observation st.cfg (env.agent_selection st.envState)
            (env.stepE st.envState act2).2
            (st.stack_of_frames (env.agent_selection st.envState))).2⟩,
        some (modify_observation st.cfg (env.agent_selection st.envState)
          (env.stepE st.envState act2).2
          (st.stack_of_frames (env.agent_selection st.envState))).1) := by
  simp [wrapperStep, h]

/-- Witness for C10: agent 0 acts, the environment then selects agent 1,
and the observation is transformed and buffered for agent 0. -/
theorem C10_step_uses_pre_step_agent_witness :
    modify_action exC10st.cfg (fun _ => 0) (fun _ => ActSpace.other) 0 (.idx 5) =
      some (.idx 5) ∧
    wrapperStep exC10env (fun _ => 0) (fun _ => ActSpace.other) exC10st (.idx 5) true =
      some (⟨exC10st.cfg, 1,
        Function.update exC10st.stack_of_frames 0
          (modify_observation exC10st.cfg 0 ⟨[1], .f32, [7]⟩ none).2⟩,
        some (modify_observation exC10st.cfg 0 ⟨[1], .f32, [7]⟩ none).1) :=
  ⟨rfl, C10_step_uses_pre_step_agent exC10env (fun _ => 0) (fun _ => ActSpace.other) exC10st
    (.idx 5) (.idx 5) rfl⟩
